import Mathlib

/-!
Verification of the cloud cost EDA pipeline (src/app.py): cleaning,
outlier removal, filtering, aggregation and the optimization advisor,
shallowly embedded over lists of records with rational-valued numeric
columns (`Option ℚ` where the column may hold a missing value).
-/

namespace Week9

/-- A compute (EC2) record, as loaded from the compute CSV.
Numeric columns that may contain missing values are `Option ℚ`. -/
structure Ec2Row where
  resourceId : String
  instanceType : String
  region : String
  state : String
  cpuUtilization : Option ℚ
  memoryUtilization : Option ℚ
  costUSD : Option ℚ
  creationDate : Int
deriving DecidableEq

/-- A storage (S3) record, as loaded from the storage CSV. -/
structure S3Row where
  bucketName : String
  region : String
  storageClass : String
  totalSizeGB : Option ℚ
  objectCount : Nat
  costUSD : Option ℚ
  creationDate : Int
deriving DecidableEq

/-- Median of the present (non-missing) values of a column, as
`Series.median` computes it: sort, take the middle element (odd length)
or the average of the two middle elements (even length); `none` on an
empty column (pandas returns NaN there). -/
def median (l : List ℚ) : Option ℚ :=
  match l with
  | [] => none
  | _ :: _ =>
    let s := l.insertionSort (· ≤ ·)
    let n := s.length
    if n % 2 = 1 then some (s.getD (n / 2) 0)
    else some ((s.getD (n / 2 - 1) 0 + s.getD (n / 2) 0) / 2)

/-- Lines 53-55 of app.py: impute `CPUUtilization` and
`MemoryUtilization` with the column median (a no-op on rows whose value
is present, and a no-op everywhere when the column is entirely missing,
since `fillna` with the NaN median fills nothing), and `CostUSD` with 0. -/
def cleanEc2 (l : List Ec2Row) : List Ec2Row :=
  let mCpu := median (l.filterMap Ec2Row.cpuUtilization)
  let mMem := median (l.filterMap Ec2Row.memoryUtilization)
  l.map (fun r =>
    { r with
      cpuUtilization := r.cpuUtilization.orElse (fun _ => mCpu)
      memoryUtilization := r.memoryUtilization.orElse (fun _ => mMem)
      costUSD := some (r.costUSD.getD 0) })

/-- Lines 57-58 of app.py: impute `CostUSD` and `TotalSizeGB` with 0. -/
def cleanS3 (l : List S3Row) : List S3Row :=
  l.map (fun r =>
    { r with
      costUSD := some (r.costUSD.getD 0)
      totalSizeGB := some (r.totalSizeGB.getD 0) })

/-- `Series.quantile q` with the default linear interpolation between
closest ranks: position `q * (n - 1)` in the sorted column. -/
def quantileLin (l : List ℚ) (q : ℚ) : ℚ :=
  let s := l.insertionSort (· ≤ ·)
  let n := s.length
  if n = 0 then 0 else
  let pos : ℚ := q * ((n : ℚ) - 1)
  let i : Nat := Int.toNat ⌊pos⌋
  let frac : ℚ := pos - (i : ℚ)
  if i + 1 < n then s.getD i 0 + frac * (s.getD (i + 1) 0 - s.getD i 0)
  else s.getD i 0

/-- Lines 61-67 of app.py (`remove_outliers`): keep the rows whose value
in the designated column lies in `[Q1 - 1.5*IQR, Q3 + 1.5*IQR]`. -/
def remove_outliers {α : Type} (f : α → ℚ) (l : List α) : List α :=
  let q1 := quantileLin (l.map f) (1 / 4)
  let q3 := quantileLin (l.map f) (3 / 4)
  let iqr := q3 - q1
  let lower := q1 - 3 / 2 * iqr
  let upper := q3 + 3 / 2 * iqr
  l.filter (fun r => decide (lower ≤ f r) && decide (f r ≤ upper))

/-- Lines 85-89 of app.py: the compute filter. Region and state are
`isin` allow-sets; the instance-type allow-set is special-cased so that
an empty selection means no restriction. -/
def filterEc2 (l : List Ec2Row) (regions states types : List String) : List Ec2Row :=
  l.filter (fun r =>
    decide (r.region ∈ regions) && decide (r.state ∈ states) &&
    (if types = [] then true else decide (r.instanceType ∈ types)))

/-- Lines 91-94 of app.py: the storage filter. Region is an `isin`
allow-set; an empty storage-class selection means no restriction. -/
def filterS3 (l : List S3Row) (regions classes : List String) : List S3Row :=
  l.filter (fun r =>
    decide (r.region ∈ regions) &&
    (if classes = [] then true else decide (r.storageClass ∈ classes)))

/-- Ranking order used by `nlargest` / descending `sort_values` on rows
paired with their original position: larger column value first, ties by
original position (stable descending order). -/
def rankRel {α : Type} (f : α → ℚ) (x y : Nat × α) : Prop :=
  f y.2 < f x.2 ∨ (f x.2 = f y.2 ∧ x.1 ≤ y.1)

instance instDecRankRel {α : Type} (f : α → ℚ) : DecidableRel (rankRel f) :=
  fun x y =>
    decidable_of_iff (f y.2 < f x.2 ∨ (f x.2 = f y.2 ∧ x.1 ≤ y.1)) Iff.rfl

instance instTotalRankRel {α : Type} (f : α → ℚ) : IsTotal (Nat × α) (rankRel f) := by
  constructor
  intro x y
  rcases lt_trichotomy (f x.2) (f y.2) with h | h | h
  · exact Or.inr (Or.inl h)
  · rcases Nat.le_total x.1 y.1 with hn | hn
    · exact Or.inl (Or.inr ⟨h, hn⟩)
    · exact Or.inr (Or.inr ⟨h.symm, hn⟩)
  · exact Or.inl (Or.inl h)

instance instTransRankRel {α : Type} (f : α → ℚ) : IsTrans (Nat × α) (rankRel f) := by
  constructor
  intro x y z hxy hyz
  rcases hxy with h1 | ⟨h1, i1⟩
  · rcases hyz with h2 | ⟨h2, i2⟩
    · exact Or.inl (h2.trans h1)
    · exact Or.inl (h2 ▸ h1)
  · rcases hyz with h2 | ⟨h2, i2⟩
    · exact Or.inl (lt_of_lt_of_eq h2 h1.symm)
    · exact Or.inr ⟨h1.trans h2, i1.trans i2⟩

/-- Rows of a view paired with their original position, sorted by the
ranking column descending, ties by original position. -/
def rankSorted {α : Type} (f : α → ℚ) (l : List α) : List (Nat × α) :=
  List.insertionSort (rankRel f) l.enum

/-- `nlargest(n, column)` (lines 99-100 of app.py) and equally the
descending `sort_values(...).head(n)` pattern (lines 114 and 122):
the first `n` rows of the stable descending order on the column. -/
def top_n_by {α : Type} (f : α → ℚ) (n : Nat) (l : List α) : List α :=
  ((rankSorted f l).map Prod.snd).take n

/-- The rows of the view that `top_n_by` leaves out. -/
def excluded_by {α : Type} (f : α → ℚ) (n : Nat) (l : List α) : List α :=
  ((rankSorted f l).map Prod.snd).drop n

/-- The distinct values of the grouping column, one per group. -/
def groupKeys {α : Type} (key : α → String) (l : List α) : List String :=
  (l.map key).dedup

/-- `groupby(group_col)[value_col].mean()` (line 102 of app.py): one row
per distinct group value, carrying the arithmetic mean of the value
column over the rows of that group. -/
def group_mean {α : Type} (key : α → String) (val : α → ℚ) (l : List α) :
    List (String × ℚ) :=
  (groupKeys key l).map (fun k =>
    (k, ((l.filter (fun r => decide (key r = k))).map val).sum /
        ((l.filter (fun r => decide (key r = k))).length : ℚ)))

/-- `groupby(group_col)[value_col].sum()` (line 103 of app.py). -/
def group_sum {α : Type} (key : α → String) (val : α → ℚ) (l : List α) :
    List (String × ℚ) :=
  (groupKeys key l).map (fun k =>
    (k, ((l.filter (fun r => decide (key r = k))).map val).sum))

/-- Line 113 of app.py: `SavingsPerHour = CostUSD * 0.5`. -/
def savings_per_hour (r : Ec2Row) : ℚ :=
  r.costUSD.getD 0 * (1 / 2)

/-- Line 121 of app.py: `MonthlySavings = TotalSizeGB * 0.01`. -/
def monthly_savings (r : S3Row) : ℚ :=
  r.totalSizeGB.getD 0 * (1 / 100)

/-- Lines 110-111 of app.py: `CPUUtilization < 20` (false on a missing
value, as a NaN comparison is in pandas) and `State == "running"`. -/
def underutilizedPred (r : Ec2Row) : Bool :=
  (r.cpuUtilization.any (fun v => decide (v < 20))) && decide (r.state = "running")

/-- Lines 109-113 of app.py before truncation: every qualifying compute
row together with its `SavingsPerHour` value. -/
def underutilized_ec2_all (l : List Ec2Row) : List (Ec2Row × ℚ) :=
  (l.filter underutilizedPred).map (fun r => (r, savings_per_hour r))

/-- Line 114 of app.py: sort the qualifying rows descending by
`SavingsPerHour` and keep the top 10 for display. -/
def underutilized_ec2 (l : List Ec2Row) : List (Ec2Row × ℚ) :=
  top_n_by Prod.snd 10 (underutilized_ec2_all l)

/-- Line 217 of app.py: the headline total is summed over the
(already truncated) `underutilized_ec2` table. -/
def total_savings_hr (l : List Ec2Row) : ℚ :=
  ((underutilized_ec2 l).map Prod.snd).sum

/-- Lines 118-119 of app.py: `StorageClass == "STANDARD"` and
`TotalSizeGB > 100` (false on a missing value). -/
def expensivePred (r : S3Row) : Bool :=
  decide (r.storageClass = "STANDARD") && (r.totalSizeGB.any (fun v => decide (100 < v)))

/-- Lines 117-121 of app.py before truncation: every qualifying storage
row together with its `MonthlySavings` value. -/
def expensive_s3_all (l : List S3Row) : List (S3Row × ℚ) :=
  (l.filter expensivePred).map (fun r => (r, monthly_savings r))

/-- Line 122 of app.py: sort descending by `MonthlySavings`, keep 10. -/
def expensive_s3 (l : List S3Row) : List (S3Row × ℚ) :=
  top_n_by Prod.snd 10 (expensive_s3_all l)

/-- Line 234 of app.py: the headline monthly total, summed over the
truncated `expensive_s3` table. -/
def total_savings_mo (l : List S3Row) : ℚ :=
  ((expensive_s3 l).map Prod.snd).sum

/-- All views the pipeline of app.py derives from the two raw record
sets and the five sidebar filter selections. -/
structure PipelineOut where
  dfEc2 : List Ec2Row
  dfS3 : List S3Row
  dfEc2Clean : List Ec2Row
  dfS3Clean : List S3Row
  filteredEc2 : List Ec2Row
  filteredS3 : List S3Row
  top5Ec2 : List Ec2Row
  top5S3 : List S3Row
  avgCostRegion : List (String × ℚ)
  totalStorageRegion : List (String × ℚ)
  underutilizedTable : List (Ec2Row × ℚ)
  savingsHr : ℚ
  expensiveTable : List (S3Row × ℚ)
  savingsMo : ℚ
deriving DecidableEq

/-- The whole pipeline of app.py in source order: clean (lines 53-58),
compute the outlier-free views (lines 69-70), filter the imputed views
(lines 85-94), aggregate (lines 99-103) and run the advisor
(lines 109-122, 217, 234) on the filtered views. -/
def runPipeline (ec2Raw : List Ec2Row) (s3Raw : List S3Row)
    (ec2Regions ec2States ec2Types s3Regions s3Classes : List String) :
    PipelineOut :=
  let dfEc2 := cleanEc2 ec2Raw
  let dfS3 := cleanS3 s3Raw
  let dfEc2Clean := remove_outliers (fun r => r.costUSD.getD 0) dfEc2
  let dfS3Clean := remove_outliers (fun r => r.totalSizeGB.getD 0) dfS3
  let fEc2 := filterEc2 dfEc2 ec2Regions ec2States ec2Types
  let fS3 := filterS3 dfS3 s3Regions s3Classes
  { dfEc2 := dfEc2
    dfS3 := dfS3
    dfEc2Clean := dfEc2Clean
    dfS3Clean := dfS3Clean
    filteredEc2 := fEc2
    filteredS3 := fS3
    top5Ec2 := top_n_by (fun r => r.costUSD.getD 0) 5 fEc2
    top5S3 := top_n_by (fun r => r.totalSizeGB.getD 0) 5 fS3
    avgCostRegion := group_mean Ec2Row.region (fun r => r.costUSD.getD 0) fEc2
    totalStorageRegion := group_sum S3Row.region (fun r => r.totalSizeGB.getD 0) fS3
    underutilizedTable := underutilized_ec2 fEc2
    savingsHr := total_savings_hr fEc2
    expensiveTable := expensive_s3 fS3
    savingsMo := total_savings_mo fS3 }

/-- `rankSorted` permutes the position-tagged view. -/
lemma rankSorted_perm {α : Type} (f : α → ℚ) (l : List α) :
    List.Perm (rankSorted f l) l.enum :=
  List.perm_insertionSort (rankRel f) l.enum

/-- `rankSorted` is sorted for the descending tie-stable order. -/
lemma rankSorted_sorted {α : Type} (f : α → ℚ) (l : List α) :
    List.Sorted (rankRel f) (rankSorted f l) :=
  List.sorted_insertionSort (rankRel f) l.enum

/-- Dropping the position tags of `rankSorted` permutes the view. -/
lemma rankSorted_map_snd_perm {α : Type} (f : α → ℚ) (l : List α) :
    List.Perm ((rankSorted f l).map Prod.snd) l := by
  have h := (rankSorted_perm f l).map Prod.snd
  rwa [List.enum_map_snd] at h

/-- The ranking column is pairwise descending along the sorted view. -/
lemma rankSorted_vals_desc {α : Type} (f : α → ℚ) (l : List α) :
    List.Pairwise (fun a b => f b ≤ f a) ((rankSorted f l).map Prod.snd) := by
  rw [List.pairwise_map]
  refine (rankSorted_sorted f l).imp ?_
  intro a b h
  rcases h with h | ⟨h, _⟩
  · exact le_of_lt h
  · exact le_of_eq h.symm

/-- The top-`n` rows and the excluded rows partition the view. -/
lemma top_excluded_perm {α : Type} (f : α → ℚ) (n : Nat) (l : List α) :
    List.Perm (top_n_by f n l ++ excluded_by f n l) l := by
  unfold top_n_by excluded_by
  rw [List.take_append_drop]
  exact rankSorted_map_snd_perm f l

/-- Every top-`n` row is a row of the view. -/
lemma mem_of_mem_top_n_by {α : Type} {f : α → ℚ} {n : Nat} {l : List α} {x : α}
    (h : x ∈ top_n_by f n l) : x ∈ l :=
  (rankSorted_map_snd_perm f l).mem_iff.mp (List.mem_of_mem_take h)

/-- Every top-`n` row ranks at least as high as every excluded row. -/
lemma top_n_by_ge_excluded {α : Type} {f : α → ℚ} {n : Nat} {l : List α} {x y : α}
    (hx : x ∈ top_n_by f n l) (hy : y ∈ excluded_by f n l) : f y ≤ f x := by
  have h := rankSorted_vals_desc f l
  rw [← List.take_append_drop n ((rankSorted f l).map Prod.snd),
    List.pairwise_append] at h
  exact h.2.2 x hx y hy

/-- C10: every row-selection step of the pipeline — outlier removal, the
compute and storage filters, and the two advisor selection predicates —
returns a subsequence of its input: each surviving row is an unmodified
input row and the survivors keep their original relative order. -/
theorem c10_selection_stages_are_subsequences {α : Type} (f : α → ℚ) (l : List α)
    (lE : List Ec2Row) (lS : List S3Row)
    (regions states types classes : List String) :
    List.Sublist (remove_outliers f l) l ∧
    List.Sublist (filterEc2 lE regions states types) lE ∧
    List.Sublist (filterS3 lS regions classes) lS ∧
    List.Sublist ((underutilized_ec2_all lE).map Prod.fst) lE ∧
    List.Sublist ((expensive_s3_all lS).map Prod.fst) lS := by
  refine ⟨List.filter_sublist l, List.filter_sublist lE, List.filter_sublist lS, ?_, ?_⟩
  · have h : (underutilized_ec2_all lE).map Prod.fst = lE.filter underutilizedPred := by
      simp [underutilized_ec2_all, List.map_map, Function.comp_def]
    rw [h]
    exact List.filter_sublist lE
  · have h : (expensive_s3_all lS).map Prod.fst = lS.filter expensivePred := by
      simp [expensive_s3_all, List.map_map, Function.comp_def]
    rw [h]
    exact List.filter_sublist lS

unseal Rat.add Rat.mul Rat.inv Rat.sub in
/-- C4 counterexample: on the column `[0, 10, 10, 10, 20, 1000]` the
first pass keeps `[0, 10, 10, 10, 20]` (Q1 = 10, Q3 = 17.5), but on that
result Q1 = Q3 = 10, so the second pass keeps only `[10, 10, 10]`:
outlier removal applied twice differs from applying it once. -/
theorem c4_counterexample :
    remove_outliers id (remove_outliers id [(0 : ℚ), 10, 10, 10, 20, 1000]) ≠
      remove_outliers id [(0 : ℚ), 10, 10, 10, 20, 1000] := by decide

/-- C4 amended: outlier removal is not idempotent in general; a second
application returns a (possibly strict) subsequence of the first
application's result, never anything new. -/
theorem c4_amended_second_pass_sublist {α : Type} (f : α → ℚ) (l : List α) :
    List.Sublist (remove_outliers f (remove_outliers f l)) (remove_outliers f l) :=
  List.filter_sublist (remove_outliers f l)

/-- C8: `top_n_by` returns at most `n` rows, each returned row is a row
of the input view, the returned and excluded rows together permute the
view, every returned row's ranked value is at least every excluded
row's, and the underlying order is the stable descending sort: it
permutes the position-tagged view and rows with equal ranked values
keep increasing original positions. -/
theorem c8_top_n_by_spec {α : Type} (f : α → ℚ) (n : Nat) (l : List α) (x y : α) :
    (top_n_by f n l).length ≤ n ∧
    (x ∈ top_n_by f n l → x ∈ l) ∧
    List.Perm (top_n_by f n l ++ excluded_by f n l) l ∧
    (x ∈ top_n_by f n l → y ∈ excluded_by f n l → f y ≤ f x) ∧
    List.Perm (rankSorted f l) l.enum ∧
    List.Pairwise (fun u v : Nat × α => f u.2 = f v.2 → u.1 ≤ v.1) (rankSorted f l) := by
  refine ⟨List.length_take_le n _, fun h => mem_of_mem_top_n_by h, top_excluded_perm f n l,
    fun hx hy => top_n_by_ge_excluded hx hy, rankSorted_perm f l, ?_⟩
  refine (rankSorted_sorted f l).imp ?_
  intro u v h heq
  rcases h with h | ⟨_, hle⟩
  · exact absurd heq (ne_of_gt h)
  · exact hle

/-- C3: an explicit empty allow-set on region or state excludes every
row, while an empty allow-set on instance type or storage class is
treated as no restriction; overall filtering is a conjunction across
predicate dimensions of membership within each allow-set. -/
theorem c3_filter_allow_set_semantics (lE : List Ec2Row) (lS : List S3Row)
    (regions states types classes : List String) (r : Ec2Row) (s : S3Row) :
    filterEc2 lE [] states types = [] ∧
    filterEc2 lE regions [] types = [] ∧
    filterS3 lS [] classes = [] ∧
    (r ∈ filterEc2 lE regions states types ↔
      r ∈ lE ∧ r.region ∈ regions ∧ r.state ∈ states ∧
        (types = [] ∨ r.instanceType ∈ types)) ∧
    (s ∈ filterS3 lS regions classes ↔
      s ∈ lS ∧ s.region ∈ regions ∧ (classes = [] ∨ s.storageClass ∈ classes)) ∧
    filterEc2 lE regions states [] =
      lE.filter (fun a => decide (a.region ∈ regions) && decide (a.state ∈ states)) ∧
    filterS3 lS regions [] = lS.filter (fun a => decide (a.region ∈ regions)) := by
  refine ⟨?_, ?_, ?_, ?_, ?_, ?_, ?_⟩
  · simp [filterEc2]
  · simp [filterEc2]
  · simp [filterS3]
  · by_cases ht : types = []
    · simp [filterEc2, List.mem_filter, ht]
    · simp [filterEc2, List.mem_filter, ht]
      tauto
  · by_cases hc : classes = []
    · simp [filterS3, List.mem_filter, hc]
    · simp [filterS3, List.mem_filter, hc]
  · simp [filterEc2]
  · simp [filterS3]

/-- The downstream views: what the Filter Engine, Aggregator and
Optimization Advisor produce. -/
structure DownstreamViews where
  filteredEc2 : List Ec2Row
  filteredS3 : List S3Row
  top5Ec2 : List Ec2Row
  top5S3 : List S3Row
  avgCostRegion : List (String × ℚ)
  totalStorageRegion : List (String × ℚ)
  underutilizedTable : List (Ec2Row × ℚ)
  savingsHr : ℚ
  expensiveTable : List (S3Row × ℚ)
  savingsMo : ℚ
deriving DecidableEq

/-- The Filter Engine, Aggregator and Optimization Advisor applied to a
given pair of base views: the spec-side description of every stage after
cleaning, taking its base views as explicit inputs. -/
def downstreamOfViews (ec2View : List Ec2Row) (s3View : List S3Row)
    (ec2Regions ec2States ec2Types s3Regions s3Classes : List String) :
    DownstreamViews :=
  let fEc2 := filterEc2 ec2View ec2Regions ec2States ec2Types
  let fS3 := filterS3 s3View s3Regions s3Classes
  { filteredEc2 := fEc2
    filteredS3 := fS3
    top5Ec2 := top_n_by (fun a => a.costUSD.getD 0) 5 fEc2
    top5S3 := top_n_by (fun a => a.totalSizeGB.getD 0) 5 fS3
    avgCostRegion := group_mean Ec2Row.region (fun a => a.costUSD.getD 0) fEc2
    totalStorageRegion := group_sum S3Row.region (fun a => a.totalSizeGB.getD 0) fS3
    underutilizedTable := underutilized_ec2 fEc2
    savingsHr := total_savings_hr fEc2
    expensiveTable := expensive_s3 fS3
    savingsMo := total_savings_mo fS3 }

/-- The downstream portion of a pipeline run. -/
def pipelineDownstream (p : PipelineOut) : DownstreamViews :=
  { filteredEc2 := p.filteredEc2
    filteredS3 := p.filteredS3
    top5Ec2 := p.top5Ec2
    top5S3 := p.top5S3
    avgCostRegion := p.avgCostRegion
    totalStorageRegion := p.totalStorageRegion
    underutilizedTable := p.underutilizedTable
    savingsHr := p.savingsHr
    expensiveTable := p.expensiveTable
    savingsMo := p.savingsMo }

/-- C9: the outlier-free views feed no downstream stage: every
downstream output of the pipeline equals the result of applying the
Filter Engine, Aggregator and Advisor to the imputed (but not
outlier-filtered) views alone, while the outlier-free views are merely
produced on the side. -/
theorem c9_outlier_free_views_unused_downstream
    (ec2Raw : List Ec2Row) (s3Raw : List S3Row)
    (ec2Regions ec2States ec2Types s3Regions s3Classes : List String) :
    pipelineDownstream
        (runPipeline ec2Raw s3Raw ec2Regions ec2States ec2Types s3Regions s3Classes) =
      downstreamOfViews (cleanEc2 ec2Raw) (cleanS3 s3Raw)
        ec2Regions ec2States ec2Types s3Regions s3Classes ∧
    (runPipeline ec2Raw s3Raw ec2Regions ec2States ec2Types s3Regions s3Classes).dfEc2Clean =
      remove_outliers (fun a => a.costUSD.getD 0) (cleanEc2 ec2Raw) ∧
    (runPipeline ec2Raw s3Raw ec2Regions ec2States ec2Types s3Regions s3Classes).dfS3Clean =
      remove_outliers (fun a => a.totalSizeGB.getD 0) (cleanS3 s3Raw) :=
  ⟨rfl, rfl, rfl⟩

/-- Filling from an absent median leaves the value unchanged. -/
lemma orElse_none_eq (o : Option ℚ) : o.orElse (fun _ => none) = o := by
  cases o <;> rfl

/-- Filling from a present median yields the value or the median. -/
lemma orElse_some_eq_getD (o : Option ℚ) (m : ℚ) :
    o.orElse (fun _ => some m) = some (o.getD m) := by
  cases o <;> rfl

/-- The median of a one-value column is that value. -/
lemma median_singleton (v : ℚ) : median [v] = some v := by
  simp [median, List.insertionSort, List.orderedInsert]

/-- C2 amended: the Cleaner never signals an error and always returns a
cleaned record set of the same length; when a designated utilization
column is entirely missing, the undefined median makes the fill a no-op,
so the returned record set still carries the missing values (while the
cost column is imputed with 0 regardless). No `DataShapeError` exists. -/
theorem c2_amended_cleaner_total_on_empty_column (l : List Ec2Row)
    (h : l.filterMap Ec2Row.cpuUtilization = []) :
    (cleanEc2 l).length = l.length ∧
    (∀ r ∈ cleanEc2 l, r.costUSD.isSome) ∧
    (cleanEc2 l).map Ec2Row.cpuUtilization = l.map Ec2Row.cpuUtilization := by
  have hm : median (l.filterMap Ec2Row.cpuUtilization) = none := by rw [h]; rfl
  refine ⟨by simp [cleanEc2], ?_, ?_⟩
  · intro r hr
    simp only [cleanEc2, List.mem_map] at hr
    obtain ⟨a, _, rfl⟩ := hr
    rfl
  · simp only [cleanEc2, hm, List.map_map]
    refine List.map_congr_left ?_
    intro a _
    simp only [Function.comp_apply]
    exact orElse_none_eq a.cpuUtilization

/-- C2 amended, witnessed at a record set whose CPU column is entirely
missing: cleaning returns it with the missing value still in place. -/
theorem c2_amended_witness :
    (cleanEc2 [⟨"i-1", "t3.micro", "us-east-1", "running", none, some 5, some 1, 0⟩]).map
        Ec2Row.cpuUtilization =
      [(⟨"i-1", "t3.micro", "us-east-1", "running", none, some 5, some 1, 0⟩ : Ec2Row)].map
        Ec2Row.cpuUtilization :=
  (c2_amended_cleaner_total_on_empty_column
    [⟨"i-1", "t3.micro", "us-east-1", "running", none, some 5, some 1, 0⟩] (by decide)).2.2

/-- C2 counterexample: on a record set whose CPU utilization column is
entirely missing, the Cleaner signals nothing and produces a cleaned
record set — one still containing the missing value — contradicting
"signal a DataShapeError immediately and return no partial result". -/
theorem c2_counterexample_result_produced_no_error :
    cleanEc2 [⟨"i-2", "t3.micro", "us-east-1", "running", none, some 5, some 1, 0⟩] =
      [⟨"i-2", "t3.micro", "us-east-1", "running", none, some 5, some 1, 0⟩] ∧
    (cleanEc2 [⟨"i-2", "t3.micro", "us-east-1", "running", none, some 5, some 1, 0⟩]).map
        Ec2Row.cpuUtilization = [none] := by
  exact ⟨rfl, rfl⟩

/-- C5 counterexample: cleaning a record set whose CPU utilization
column is entirely missing leaves missing values in a designated numeric
column, refuting "for every input record set, after cleaning, the
designated numeric columns contain no missing values". -/
theorem c5_counterexample_missing_values_survive_cleaning :
    (cleanEc2 [⟨"a1", "t3a", "us-east-1", "running", none, some 3, some 1, 0⟩,
        ⟨"b1", "t3a", "us-east-1", "running", none, some 4, some 2, 0⟩]).map
        Ec2Row.cpuUtilization = [none, none] ∧
    (cleanEc2 [⟨"a1", "t3a", "us-east-1", "running", none, some 3, some 1, 0⟩,
        ⟨"b1", "t3a", "us-east-1", "running", none, some 4, some 2, 0⟩]).length = 2 := by
  exact ⟨rfl, rfl⟩

/-- C5 amended: provided each utilization column has at least one
present value (so its median exists), cleaning leaves no missing value
in the designated columns: the utilization columns are imputed with the
column median computed over the input rows (before outlier removal),
cost and storage size are imputed with 0, and when a utilization column
has exactly one present value the imputed entries equal that value. -/
theorem c5_amended_imputation (l : List Ec2Row) (ls : List S3Row) (mc mm : ℚ)
    (hc : median (l.filterMap Ec2Row.cpuUtilization) = some mc)
    (hm : median (l.filterMap Ec2Row.memoryUtilization) = some mm) :
    (cleanEc2 l).map Ec2Row.cpuUtilization =
      l.map (fun r => some (r.cpuUtilization.getD mc)) ∧
    (cleanEc2 l).map Ec2Row.memoryUtilization =
      l.map (fun r => some (r.memoryUtilization.getD mm)) ∧
    (cleanEc2 l).map Ec2Row.costUSD = l.map (fun r => some (r.costUSD.getD 0)) ∧
    (∀ r ∈ cleanEc2 l,
      r.cpuUtilization.isSome ∧ r.memoryUtilization.isSome ∧ r.costUSD.isSome) ∧
    (cleanS3 ls).map S3Row.costUSD = ls.map (fun r => some (r.costUSD.getD 0)) ∧
    (cleanS3 ls).map S3Row.totalSizeGB =
      ls.map (fun r => some (r.totalSizeGB.getD 0)) ∧
    (∀ v, l.filterMap Ec2Row.cpuUtilization = [v] → mc = v) := by
  refine ⟨?_, ?_, ?_, ?_, ?_, ?_, ?_⟩
  · simp only [cleanEc2, hc, List.map_map]
    refine List.map_congr_left ?_
    intro a _
    simp only [Function.comp_apply]
    exact orElse_some_eq_getD a.cpuUtilization mc
  · simp only [cleanEc2, hm, List.map_map]
    refine List.map_congr_left ?_
    intro a _
    simp only [Function.comp_apply]
    exact orElse_some_eq_getD a.memoryUtilization mm
  · simp only [cleanEc2, List.map_map]
    refine List.map_congr_left ?_
    intro a _
    rfl
  · intro r hr
    simp only [cleanEc2, hc, hm, List.mem_map] at hr
    obtain ⟨a, _, rfl⟩ := hr
    refine ⟨?_, ?_, rfl⟩
    · simp [orElse_some_eq_getD]
    · simp [orElse_some_eq_getD]
  · simp only [cleanS3, List.map_map]
    refine List.map_congr_left ?_
    intro a _
    rfl
  · simp only [cleanS3, List.map_map]
    refine List.map_congr_left ?_
    intro a _
    rfl
  · intro v hv
    rw [hv, median_singleton] at hc
    exact (Option.some.inj hc).symm

/-- C5 amended, witnessed at a record set whose CPU column has the single
present value 30: every cleaned CPU entry is present, imputed with 30. -/
theorem c5_amended_witness :
    (cleanEc2 [⟨"a2", "t3a", "us-east-1", "running", some 30, none, none, 0⟩,
        ⟨"b2", "t3a", "us-east-1", "stopped", none, some 8, some 4, 0⟩]).map
        Ec2Row.cpuUtilization =
      [(⟨"a2", "t3a", "us-east-1", "running", some 30, none, none, 0⟩ : Ec2Row),
        ⟨"b2", "t3a", "us-east-1", "stopped", none, some 8, some 4, 0⟩].map
        (fun r => some (r.cpuUtilization.getD 30)) :=
  (c5_amended_imputation
    [⟨"a2", "t3a", "us-east-1", "running", some 30, none, none, 0⟩,
      ⟨"b2", "t3a", "us-east-1", "stopped", none, some 8, some 4, 0⟩]
    [⟨"bkt", "us-east-1", "STANDARD", none, 3, none, 0⟩]
    30 8 (by decide) (by decide)).1

/-- Membership characterization of `group_mean`: the pairs are exactly
(present group key, mean of the value column over that group). -/
lemma group_mean_mem_iff {α : Type} (key : α → String) (val : α → ℚ) (l : List α)
    (p : String × ℚ) :
    p ∈ group_mean key val l ↔
      p.1 ∈ l.map key ∧
      p.2 = ((l.filter (fun r => decide (key r = p.1))).map val).sum /
            ((l.filter (fun r => decide (key r = p.1))).length : ℚ) := by
  unfold group_mean groupKeys
  rw [List.mem_map]
  constructor
  · rintro ⟨k, hk, hkp⟩
    cases hkp
    exact ⟨List.mem_dedup.mp hk, rfl⟩
  · rintro ⟨h1, h2⟩
    exact ⟨p.1, List.mem_dedup.mpr h1, Prod.ext rfl h2.symm⟩

/-- Membership characterization of `group_sum`. -/
lemma group_sum_mem_iff {α : Type} (key : α → String) (val : α → ℚ) (l : List α)
    (p : String × ℚ) :
    p ∈ group_sum key val l ↔
      p.1 ∈ l.map key ∧
      p.2 = ((l.filter (fun r => decide (key r = p.1))).map val).sum := by
  unfold group_sum groupKeys
  rw [List.mem_map]
  constructor
  · rintro ⟨k, hk, hkp⟩
    cases hkp
    exact ⟨List.mem_dedup.mp hk, rfl⟩
  · rintro ⟨h1, h2⟩
    exact ⟨p.1, List.mem_dedup.mpr h1, Prod.ext rfl h2.symm⟩

unseal Rat.add Rat.mul Rat.inv Rat.sub in
/-- C7: `group_mean` and `group_sum` return exactly one row per distinct
group value present in the view, carrying the mean (respectively sum) of
the value column over that group; as sets of (group, value) pairs both
are invariant under every permutation of the input rows; and on the
spec's scenario 3 (compute regions us-east, us-east, us-west with costs
10, 20, 30) the group means are exactly \x7bus-east: 15, us-west: 30\x7d. -/
theorem c7_group_mean_sum_spec {α : Type} (key : α → String) (val : α → ℚ)
    (l lp : List α) (p : String × ℚ) :
    (group_mean key val l).map Prod.fst = (l.map key).dedup ∧
    (group_sum key val l).map Prod.fst = (l.map key).dedup ∧
    ((l.map key).dedup).Nodup ∧
    (p ∈ group_mean key val l ↔
      p.1 ∈ l.map key ∧
      p.2 = ((l.filter (fun r => decide (key r = p.1))).map val).sum /
            ((l.filter (fun r => decide (key r = p.1))).length : ℚ)) ∧
    (p ∈ group_sum key val l ↔
      p.1 ∈ l.map key ∧
      p.2 = ((l.filter (fun r => decide (key r = p.1))).map val).sum) ∧
    (List.Perm l lp →
      (p ∈ group_mean key val l ↔ p ∈ group_mean key val lp) ∧
      (p ∈ group_sum key val l ↔ p ∈ group_sum key val lp)) ∧
    ("us-east", (15 : ℚ)) ∈
      group_mean Ec2Row.region (fun r => r.costUSD.getD 0)
        [⟨"r1", "m5.large", "us-east", "running", some 50, some 50, some 10, 0⟩,
          ⟨"r2", "m5.large", "us-east", "running", some 50, some 50, some 20, 0⟩,
          ⟨"r3", "m5.large", "us-west", "running", some 50, some 50, some 30, 0⟩] ∧
    ("us-west", (30 : ℚ)) ∈
      group_mean Ec2Row.region (fun r => r.costUSD.getD 0)
        [⟨"r1", "m5.large", "us-east", "running", some 50, some 50, some 10, 0⟩,
          ⟨"r2", "m5.large", "us-east", "running", some 50, some 50, some 20, 0⟩,
          ⟨"r3", "m5.large", "us-west", "running", some 50, some 50, some 30, 0⟩] ∧
    (group_mean Ec2Row.region (fun r => r.costUSD.getD 0)
        [⟨"r1", "m5.large", "us-east", "running", some 50, some 50, some 10, 0⟩,
          ⟨"r2", "m5.large", "us-east", "running", some 50, some 50, some 20, 0⟩,
          ⟨"r3", "m5.large", "us-west", "running", some 50, some 50, some 30, 0⟩]).length = 2 := by
  refine ⟨?_, ?_, List.nodup_dedup _, group_mean_mem_iff key val l p,
    group_sum_mem_iff key val l p, ?_, by decide, by decide, by decide⟩
  · simp [group_mean, groupKeys, List.map_map, Function.comp_def]
  · simp [group_sum, groupKeys, List.map_map, Function.comp_def]
  · intro h
    have h1 : p.1 ∈ l.map key ↔ p.1 ∈ lp.map key := (h.map key).mem_iff
    have h2 := h.filter (fun r => decide (key r = p.1))
    constructor
    · rw [group_mean_mem_iff, group_mean_mem_iff, h1, h2.length_eq, (h2.map val).sum_eq]
    · rw [group_sum_mem_iff, group_sum_mem_iff, h1, (h2.map val).sum_eq]

/-- Membership characterization of the underutilized-compute selection:
exactly the rows with a present CPU utilization below 20 in state
"running", each paired with half its cost. -/
lemma underutilized_all_mem_iff (l : List Ec2Row) (x : Ec2Row × ℚ) :
    x ∈ underutilized_ec2_all l ↔
      x.1 ∈ l ∧ (∃ v, x.1.cpuUtilization = some v ∧ v < 20) ∧
        x.1.state = "running" ∧ x.2 = x.1.costUSD.getD 0 * (1 / 2) := by
  constructor
  · intro hx
    obtain ⟨a, haf, heq⟩ := List.mem_map.mp hx
    obtain ⟨hal, hpred⟩ := List.mem_filter.mp haf
    unfold underutilizedPred at hpred
    rw [Bool.and_eq_true] at hpred
    obtain ⟨hcpu, hst⟩ := hpred
    subst heq
    refine ⟨hal, ?_, of_decide_eq_true hst, rfl⟩
    cases hc : a.cpuUtilization with
    | none => rw [hc, Option.any_none] at hcpu; exact absurd hcpu (by simp)
    | some v =>
      rw [hc, Option.any_some] at hcpu
      exact ⟨v, rfl, of_decide_eq_true hcpu⟩
  · rintro ⟨h1, ⟨v, hv, hvlt⟩, hst, hs⟩
    refine List.mem_map.mpr ⟨x.1, List.mem_filter.mpr ⟨h1, ?_⟩, ?_⟩
    · unfold underutilizedPred
      rw [hv, Option.any_some, Bool.and_eq_true]
      exact ⟨decide_eq_true hvlt, decide_eq_true hst⟩
    · exact Prod.ext rfl hs.symm

/-- Membership characterization of the oversized-storage selection:
exactly the STANDARD rows with a present size above 100 GB, each paired
with a hundredth of the size. -/
lemma expensive_all_mem_iff (ls : List S3Row) (y : S3Row × ℚ) :
    y ∈ expensive_s3_all ls ↔
      y.1 ∈ ls ∧ y.1.storageClass = "STANDARD" ∧
        (∃ v, y.1.totalSizeGB = some v ∧ 100 < v) ∧
        y.2 = y.1.totalSizeGB.getD 0 * (1 / 100) := by
  constructor
  · intro hy
    obtain ⟨a, haf, heq⟩ := List.mem_map.mp hy
    obtain ⟨hal, hpred⟩ := List.mem_filter.mp haf
    unfold expensivePred at hpred
    rw [Bool.and_eq_true] at hpred
    obtain ⟨hcl, hsz⟩ := hpred
    subst heq
    refine ⟨hal, of_decide_eq_true hcl, ?_, rfl⟩
    cases hc : a.totalSizeGB with
    | none => rw [hc, Option.any_none] at hsz; exact absurd hsz (by simp)
    | some v =>
      rw [hc, Option.any_some] at hsz
      exact ⟨v, rfl, of_decide_eq_true hsz⟩
  · rintro ⟨h1, hcl, ⟨v, hv, hvgt⟩, hs⟩
    refine List.mem_map.mpr ⟨y.1, List.mem_filter.mpr ⟨h1, ?_⟩, ?_⟩
    · unfold expensivePred
      rw [hv, Option.any_some, Bool.and_eq_true]
      exact ⟨decide_eq_true hcl, decide_eq_true hvgt⟩
    · exact Prod.ext rfl hs.symm

unseal Rat.add Rat.mul Rat.inv Rat.sub in
/-- C6: the underutilized-compute heuristic selects exactly the rows
with cpu utilization below 20 in state "running", assigning each half
its hourly cost as savings, and the oversized-storage heuristic selects
exactly the STANDARD rows above 100 GB, assigning each a savings of one
cent per GB; on the spec's scenario 1 only resource A qualifies with
savings 50, and on scenario 2 only bucket X qualifies with savings 1.5. -/
theorem c6_advisor_selection_and_savings (l : List Ec2Row) (ls : List S3Row)
    (x : Ec2Row × ℚ) (y : S3Row × ℚ) :
    (x ∈ underutilized_ec2_all l ↔
      x.1 ∈ l ∧ (∃ v, x.1.cpuUtilization = some v ∧ v < 20) ∧
        x.1.state = "running" ∧ x.2 = x.1.costUSD.getD 0 * (1 / 2)) ∧
    (y ∈ expensive_s3_all ls ↔
      y.1 ∈ ls ∧ y.1.storageClass = "STANDARD" ∧
        (∃ v, y.1.totalSizeGB = some v ∧ 100 < v) ∧
        y.2 = y.1.totalSizeGB.getD 0 * (1 / 100)) ∧
    underutilized_ec2_all
        [⟨"A", "m5.large", "us-east-1", "running", some 10, some 40, some 100, 0⟩,
          ⟨"B", "m5.large", "us-east-1", "running", some 50, some 40, some 80, 0⟩,
          ⟨"C", "m5.large", "us-east-1", "stopped", some 5, some 40, some 40, 0⟩] =
      [(⟨"A", "m5.large", "us-east-1", "running", some 10, some 40, some 100, 0⟩, 50)] ∧
    total_savings_hr
        [⟨"A", "m5.large", "us-east-1", "running", some 10, some 40, some 100, 0⟩,
          ⟨"B", "m5.large", "us-east-1", "running", some 50, some 40, some 80, 0⟩,
          ⟨"C", "m5.large", "us-east-1", "stopped", some 5, some 40, some 40, 0⟩] = 50 ∧
    underutilized_ec2
        [⟨"A", "m5.large", "us-east-1", "running", some 10, some 40, some 100, 0⟩,
          ⟨"B", "m5.large", "us-east-1", "running", some 50, some 40, some 80, 0⟩,
          ⟨"C", "m5.large", "us-east-1", "stopped", some 5, some 40, some 40, 0⟩] =
      [(⟨"A", "m5.large", "us-east-1", "running", some 10, some 40, some 100, 0⟩, 50)] ∧
    expensive_s3_all
        [⟨"X", "us-east-1", "STANDARD", some 150, 1, some 10, 0⟩,
          ⟨"Y", "us-east-1", "STANDARD", some 50, 1, some 5, 0⟩,
          ⟨"Z", "us-east-1", "GLACIER", some 500, 1, some 20, 0⟩] =
      [(⟨"X", "us-east-1", "STANDARD", some 150, 1, some 10, 0⟩, 3 / 2)] ∧
    total_savings_mo
        [⟨"X", "us-east-1", "STANDARD", some 150, 1, some 10, 0⟩,
          ⟨"Y", "us-east-1", "STANDARD", some 50, 1, some 5, 0⟩,
          ⟨"Z", "us-east-1", "GLACIER", some 500, 1, some 20, 0⟩] = 3 / 2 :=
  ⟨underutilized_all_mem_iff l x, expensive_all_mem_iff ls y,
    by decide, by decide, by decide, by decide, by decide⟩

/-- When the view has at most `n` rows, `top_n_by` permutes the view. -/
lemma top_n_by_perm_of_length_le {α : Type} (f : α → ℚ) {n : Nat} {l : List α}
    (h : l.length ≤ n) : List.Perm (top_n_by f n l) l := by
  unfold top_n_by
  rw [List.take_of_length_le]
  · exact rankSorted_map_snd_perm f l
  · rw [(rankSorted_map_snd_perm f l).length_eq]
    exact h

/-- The ranked sums over the kept and the excluded rows partition the
ranked sum over the whole view. -/
lemma top_n_by_sum_add_excluded_sum {α : Type} (f : α → ℚ) (n : Nat) (l : List α) :
    ((top_n_by f n l).map f).sum + ((excluded_by f n l).map f).sum = (l.map f).sum := by
  have h := ((top_excluded_perm f n l).map f).sum_eq
  rw [← h, List.map_append, List.sum_append]

/-- Every excluded row is a row of the view. -/
lemma mem_of_mem_excluded_by {α : Type} {f : α → ℚ} {n : Nat} {l : List α} {y : α}
    (h : y ∈ excluded_by f n l) : y ∈ l :=
  (top_excluded_perm f n l).mem_iff.mp (List.mem_append_right _ h)

/-- C1 amended: for both heuristics the headline total is the sum of
the savings column of the displayed (truncated) top-10 table — not of
the entire qualifying set; it equals the qualifying set's total whenever
at most 10 rows qualify, and never exceeds it when the underlying cost
and size columns are nonnegative. -/
theorem c1_amended_headline_totals (l : List Ec2Row) (ls : List S3Row) :
    total_savings_hr l = ((underutilized_ec2 l).map Prod.snd).sum ∧
    total_savings_mo ls = ((expensive_s3 ls).map Prod.snd).sum ∧
    ((underutilized_ec2_all l).length ≤ 10 →
      total_savings_hr l = ((underutilized_ec2_all l).map Prod.snd).sum) ∧
    ((∀ r ∈ l, 0 ≤ r.costUSD.getD 0) →
      total_savings_hr l ≤ ((underutilized_ec2_all l).map Prod.snd).sum) ∧
    ((expensive_s3_all ls).length ≤ 10 →
      total_savings_mo ls = ((expensive_s3_all ls).map Prod.snd).sum) ∧
    ((∀ r ∈ ls, 0 ≤ r.totalSizeGB.getD 0) →
      total_savings_mo ls ≤ ((expensive_s3_all ls).map Prod.snd).sum) := by
  refine ⟨rfl, rfl, ?_, ?_, ?_, ?_⟩
  · intro h
    exact ((top_n_by_perm_of_length_le Prod.snd h).map Prod.snd).sum_eq
  · intro h
    have hpart := top_n_by_sum_add_excluded_sum Prod.snd 10 (underutilized_ec2_all l)
    have hnn : 0 ≤ ((excluded_by Prod.snd 10 (underutilized_ec2_all l)).map Prod.snd).sum := by
      refine List.sum_nonneg ?_
      intro v hv
      obtain ⟨p, hp, rfl⟩ := List.mem_map.mp hv
      have hmem := mem_of_mem_excluded_by hp
      obtain ⟨hp1, _, _, hp2⟩ := (underutilized_all_mem_iff l p).mp hmem
      rw [hp2]
      exact mul_nonneg (h p.1 hp1) (by norm_num)
    have : total_savings_hr l =
        ((top_n_by Prod.snd 10 (underutilized_ec2_all l)).map Prod.snd).sum := rfl
    linarith
  · intro h
    exact ((top_n_by_perm_of_length_le Prod.snd h).map Prod.snd).sum_eq
  · intro h
    have hpart := top_n_by_sum_add_excluded_sum Prod.snd 10 (expensive_s3_all ls)
    have hnn : 0 ≤ ((excluded_by Prod.snd 10 (expensive_s3_all ls)).map Prod.snd).sum := by
      refine List.sum_nonneg ?_
      intro v hv
      obtain ⟨p, hp, rfl⟩ := List.mem_map.mp hv
      have hmem := mem_of_mem_excluded_by hp
      obtain ⟨hp1, _, _, hp2⟩ := (expensive_all_mem_iff ls p).mp hmem
      rw [hp2]
      exact mul_nonneg (h p.1 hp1) (by norm_num)
    have : total_savings_mo ls =
        ((top_n_by Prod.snd 10 (expensive_s3_all ls)).map Prod.snd).sum := rfl
    linarith

unseal Rat.add Rat.mul Rat.inv Rat.sub in
/-- C1 counterexample: with 11 identical qualifying instances of hourly
cost 2 (savings 1 each), the headline total the code computes is 10 —
the sum over the truncated top-10 table — while the sum over the entire
qualifying set is 11, even though the displayed table's sum (10) equals
the headline total despite 11 > 10 rows qualifying. -/
theorem c1_counterexample_total_from_truncated_table :
    total_savings_hr (List.replicate 11
        ⟨"i", "m5.large", "us-east-1", "running", some 10, some 10, some 2, 0⟩) = 10 ∧
    ((underutilized_ec2_all (List.replicate 11
        ⟨"i", "m5.large", "us-east-1", "running", some 10, some 10, some 2, 0⟩)).map
        Prod.snd).sum = 11 ∧
    (underutilized_ec2_all (List.replicate 11
        ⟨"i", "m5.large", "us-east-1", "running", some 10, some 10, some 2, 0⟩)).length =
      11 := by
  refine ⟨by decide, by decide, by decide⟩

end Week9
